import Mathlib

/-!
Shallow embedding of the safe extended-control wrapper of
`src/lib/src/controls.rs` (crate `v4l2r`), together with proofs of the
specification's claims about it.

The raw `v4l2_ext_control` descriptor and the `V4L2_CID_*` constants come
from bindgen over the kernel uapi headers; their layout and values are
external givens.  The anonymous union member of the descriptor is modelled
as an inductive recording which member was last written; reading a member
other than the one last written yields an unspecified bit pattern in C,
which we model by the junk value `0`.

Heap allocations performed by `Box::new` / `Box::into_raw` are modelled by
an explicit heap: an association list of live cells keyed by address,
together with counters of allocations and deallocations.  `Box::new` never
returns a null pointer, which the model reflects by handing out addresses
starting at `1`.
-/

set_option autoImplicit false

namespace V4l2r

universe u

/-- Model of the process heap holding `Box`-allocated control payloads of
type `P`.  `alive` lists the live cells (most recent first), `next` is the
last address handed out (`0` initially, so every address is non-null),
`allocCount` and `freeCount` count allocations and deallocations. -/
structure Heap (P : Type u) where
  alive : List (Nat × P)
  next : Nat
  allocCount : Nat
  freeCount : Nat

/-- The empty heap. -/
def Heap.empty {P : Type u} : Heap P :=
  ⟨[], 0, 0, 0⟩

/-- Model of `Box::new` followed by `Box::into_raw`: allocates a fresh cell
holding `p` and returns its (non-null) address. -/
def Heap.alloc {P : Type u} (h : Heap P) (p : P) : Nat × Heap P :=
  (h.next + 1,
    ⟨(h.next + 1, p) :: h.alive, h.next + 1, h.allocCount + 1, h.freeCount⟩)

/-- Reads the live cell at address `a`, if any. -/
def Heap.lookup {P : Type u} (h : Heap P) (a : Nat) : Option P :=
  (h.alive.find? (fun e => e.1 == a)).map (fun e => e.2)

/-- Replaces the value of the first cell keyed `a`, leaving the list
unchanged when no such cell exists. -/
def updateAssoc {P : Type u} : List (Nat × P) → Nat → P → List (Nat × P)
  | [], _, _ => []
  | e :: rest, a, p =>
    if e.1 == a then (a, p) :: rest else e :: updateAssoc rest a p

/-- In-place store through a mutable reference to the cell at address `a`. -/
def Heap.update {P : Type u} (h : Heap P) (a : Nat) (p : P) : Heap P :=
  { h with alive := updateAssoc h.alive a p }

/-- Removes the first cell keyed `a`. -/
def removeAssoc {P : Type u} : List (Nat × P) → Nat → List (Nat × P)
  | [], _ => []
  | e :: rest, a => if e.1 == a then rest else e :: removeAssoc rest a

/-- Model of `Box::from_raw` immediately dropped: deallocates the live cell
at address `a`.  Freeing an address with no live cell is undefined
behaviour in the source; the model makes it a no-op so that the
exactly-once property is visible in `freeCount`. -/
def Heap.free {P : Type u} (h : Heap P) (a : Nat) : Heap P :=
  if (h.lookup a).isSome then
    { h with alive := removeAssoc h.alive a, freeCount := h.freeCount + 1 }
  else h

/-- The anonymous union of `v4l2_ext_control` (bindgen name
`v4l2_ext_control__bindgen_ty_1`), restricted to the members the wrapper
ever touches: the `i32` scalar `value`, the `i64` scalar `value64`, and the
payload pointer members `p_fwht_params`, `p_h264_sps`, ...  All pointer
members share the same bits, so a single `ptr` constructor carrying the
address models every `p_*` member.  The constructor records the member
last written. -/
inductive CtrlUnion where
  | value (v : Int)
  | value64 (v : Int)
  | ptr (addr : Nat)

/-- Reads the `value` member of the union; a junk value when another
member was last written (the source never does this). -/
def CtrlUnion.readValue : CtrlUnion → Int
  | .value v => v
  | _ => 0

/-- Reads the `value64` member of the union; a junk value when another
member was last written (the source never does this). -/
def CtrlUnion.readValue64 : CtrlUnion → Int
  | .value64 v => v
  | _ => 0

/-- Reads a `p_*` pointer member of the union; a junk value when another
member was last written (the source never does this). -/
def CtrlUnion.readPtr : CtrlUnion → Nat
  | .ptr a => a
  | _ => 0

/-- The raw `v4l2_ext_control` descriptor: `{ id : u32, size : u32,
reserved, union }`.  `Default::default()` zeroes every field; the zeroed
union is `value 0`. -/
structure v4l2_ext_control where
  id : Nat
  size : Nat
  anon1 : CtrlUnion

/-- Model of `SafeExtControl<T>`: a transparent wrapper around one raw
descriptor.  The marker type `T` has no runtime footprint; its associated
constant `T::ID` appears as an explicit `ID` argument to the operations
below, and its associated payload type as the heap's `P`. -/
structure SafeExtControl where
  raw : v4l2_ext_control

/-- The `id` accessor, available for every payload kind. -/
def SafeExtControl.id (c : SafeExtControl) : Nat :=
  c.raw.id

/-- `SafeExtControl::from_value` (payload kind `i32`): builds the
descriptor with `id = T::ID`, the `value` member set, and every remaining
field defaulted, hence `size = 0`. -/
def SafeExtControl.from_value (ID : Nat) (value : Int) : SafeExtControl :=
  ⟨{ id := ID, size := 0, anon1 := .value value }⟩

/-- `SafeExtControl::value` (payload kind `i32`). -/
def SafeExtControl.value (c : SafeExtControl) : Int :=
  c.raw.anon1.readValue

/-- `SafeExtControl::set_value` (payload kind `i32`): writes the `value`
member of the union, touching nothing else. -/
def SafeExtControl.set_value (c : SafeExtControl) (value : Int) : SafeExtControl :=
  ⟨{ c.raw with anon1 := .value value }⟩

/-- `SafeExtControl::from_value64` (payload kind `i64`). -/
def SafeExtControl.from_value64 (ID : Nat) (value64 : Int) : SafeExtControl :=
  ⟨{ id := ID, size := 0, anon1 := .value64 value64 }⟩

/-- `SafeExtControl::value64` (payload kind `i64`). -/
def SafeExtControl.value64 (c : SafeExtControl) : Int :=
  c.raw.anon1.readValue64

/-- `SafeExtControl::set_value64` (payload kind `i64`). -/
def SafeExtControl.set_value64 (c : SafeExtControl) (value : Int) : SafeExtControl :=
  ⟨{ c.raw with anon1 := .value64 value }⟩

/-- Numeric identifier `V4L2_CID_STATELESS_FWHT_PARAMS` from the bindgen
bindings (kernel uapi: codec-stateless base `0x00a40900` plus 100). -/
def V4L2_CID_STATELESS_FWHT_PARAMS : Nat := 0x00a40964

/-- Numeric identifier `V4L2_CID_STATELESS_H264_SPS` (base plus 2). -/
def V4L2_CID_STATELESS_H264_SPS : Nat := 0x00a40902

/-- Numeric identifier `V4L2_CID_STATELESS_H264_PPS` (base plus 3). -/
def V4L2_CID_STATELESS_H264_PPS : Nat := 0x00a40903

/-- Numeric identifier `V4L2_CID_STATELESS_H264_SCALING_MATRIX` (base plus 4). -/
def V4L2_CID_STATELESS_H264_SCALING_MATRIX : Nat := 0x00a40904

/-- Numeric identifier `V4L2_CID_STATELESS_H264_PRED_WEIGHTS` (base plus 5). -/
def V4L2_CID_STATELESS_H264_PRED_WEIGHTS : Nat := 0x00a40905

/-- Numeric identifier `V4L2_CID_STATELESS_H264_SLICE_PARAMS` (base plus 6). -/
def V4L2_CID_STATELESS_H264_SLICE_PARAMS : Nat := 0x00a40906

/-- Numeric identifier `V4L2_CID_STATELESS_H264_DECODE_PARAMS` (base plus 7). -/
def V4L2_CID_STATELESS_H264_DECODE_PARAMS : Nat := 0x00a40907

/-- Numeric identifier `V4L2_CID_STATELESS_VP8_FRAME` (base plus 200). -/
def V4L2_CID_STATELESS_VP8_FRAME : Nat := 0x00a409c8

/-- The set of pointer-kind control identifiers registered through
`wrap_both!(fwht_params, h264_decode_params, h264_pred_weights, h264_pps,
h264_scaling_matrix, h264_slice_params, h264_sps, vp8_frame)`: exactly the
identifiers the generated `Drop` implementation matches on. -/
def registeredStatelessIds : List Nat :=
  [V4L2_CID_STATELESS_FWHT_PARAMS,
   V4L2_CID_STATELESS_H264_DECODE_PARAMS,
   V4L2_CID_STATELESS_H264_PRED_WEIGHTS,
   V4L2_CID_STATELESS_H264_PPS,
   V4L2_CID_STATELESS_H264_SCALING_MATRIX,
   V4L2_CID_STATELESS_H264_SLICE_PARAMS,
   V4L2_CID_STATELESS_H264_SPS,
   V4L2_CID_STATELESS_VP8_FRAME]

/-- The `From<v4l2_ctrl_*> for SafeExtControl<T>` impl generated by
`wrap_single_control!` (the spec's `from_struct`): boxes `params`, and
builds the descriptor with `id = T::ID`,
`size = std::mem::size_of::<T::PAYLOAD>()` (passed here as `szP`), the
pointer member set to the new allocation, and the rest defaulted.  Returns
the wrapper together with the updated heap. -/
def SafeExtControl.fromParams {P : Type u} (ID szP : Nat) (params : P)
    (h : Heap P) : SafeExtControl × Heap P :=
  let r := h.alloc params
  (⟨{ id := ID, size := szP, anon1 := .ptr r.1 }⟩, r.2)

/-- The immutable payload accessor generated by `wrap_single_control!`
(`fwht_params()`, `h264_sps()`, ...; the spec's `get()`): reads the
pointer member and dereferences it after the `as_ref().unwrap()` null
check.  `none` models the two failure modes the source cannot reach: a
null pointer (the `unwrap` panic) or a dangling pointer (undefined
behaviour). -/
def SafeExtControl.getStruct {P : Type u} (c : SafeExtControl) (h : Heap P) :
    Option P :=
  let a := c.raw.anon1.readPtr
  if a = 0 then none else h.lookup a

/-- A store through the mutable payload accessor generated by
`wrap_single_control!` (`fwht_params_mut()`, ...; the spec's `get_mut()`):
writes `p` into the heap cell the wrapper's pointer member refers to.  The
descriptor itself is untouched. -/
def SafeExtControl.setStruct {P : Type u} (c : SafeExtControl) (h : Heap P)
    (p : P) : Heap P :=
  h.update c.raw.anon1.readPtr p

/-- The `Drop` implementation generated by `wrap_drop!`: when `size > 0`,
match the identifier against every registered stateless control and free
the boxed payload on a hit; any other identifier (and the whole `size = 0`
case) frees nothing. -/
def SafeExtControl.dropCtrl {P : Type u} (c : SafeExtControl) (h : Heap P) :
    Heap P :=
  if 0 < c.raw.size then
    if c.raw.id ∈ registeredStatelessIds then h.free c.raw.anon1.readPtr
    else h
  else h

/-- The `AsV4l2ControlSlice` impl for `&mut SafeExtControl<T>`:
`std::slice::from_raw_parts_mut(&mut self.0, 1)`, a one-element view of
the wrapper's own raw descriptor. -/
def SafeExtControl.as_v4l2_control_slice (c : SafeExtControl) :
    List v4l2_ext_control :=
  [c.raw]

/-- A store to element 0 of the slice returned by
`as_v4l2_control_slice`.  The slice aliases the wrapper's own storage, so
the wrapper's descriptor becomes exactly the written descriptor. -/
def SafeExtControl.sliceWrite0 (_c : SafeExtControl) (d : v4l2_ext_control) :
    SafeExtControl :=
  ⟨d⟩

/-- The payload kind `T::PAYLOAD` bound to a control identity: a 32-bit
scalar, a 64-bit scalar, or a boxed parameter struct whose byte size
(`std::mem::size_of`) is `sz`. -/
inductive PayloadKind where
  | k32
  | k64
  | kptr (sz : Nat)

/-- The `size` field value each payload kind mandates: 0 for scalars, the
struct's byte size for pointer kinds. -/
def PayloadKind.sizeField : PayloadKind → Nat
  | .k32 => 0
  | .k64 => 0
  | .kptr sz => sz

/-- A wrapper together with the heap it allocates from. -/
structure CtrlState (P : Type u) where
  c : SafeExtControl
  h : Heap P

/-- Stateful form of `from_value`: the constructor touches no heap. -/
def mkFromValue {P : Type u} (ID : Nat) (v : Int) (h0 : Heap P) : CtrlState P :=
  ⟨SafeExtControl.from_value ID v, h0⟩

/-- Stateful form of `from_value64`: the constructor touches no heap. -/
def mkFromValue64 {P : Type u} (ID : Nat) (v : Int) (h0 : Heap P) : CtrlState P :=
  ⟨SafeExtControl.from_value64 ID v, h0⟩

/-- Stateful form of the `From<v4l2_ctrl_*>` constructor. -/
def mkFromParams {P : Type u} (ID szP : Nat) (params : P) (h0 : Heap P) :
    CtrlState P :=
  let r := SafeExtControl.fromParams ID szP params h0
  ⟨r.1, r.2⟩

/-- Stateful form of `set_value`. -/
def doSetValue {P : Type u} (s : CtrlState P) (v : Int) : CtrlState P :=
  ⟨s.c.set_value v, s.h⟩

/-- Stateful form of `set_value64`. -/
def doSetValue64 {P : Type u} (s : CtrlState P) (v : Int) : CtrlState P :=
  ⟨s.c.set_value64 v, s.h⟩

/-- Stateful form of a store through the mutable payload accessor. -/
def doSetStruct {P : Type u} (s : CtrlState P) (p : P) : CtrlState P :=
  ⟨s.c, s.c.setStruct s.h p⟩

/-- The states a `SafeExtControl<T>` for an identity with id `ID` and
payload kind `k` can reach: one constructor per public construction path,
one step per exposed mutation.  Rust's trait bounds make each operation
available exactly for the payload kind it is declared at, which the kind
index enforces here. -/
inductive Reach (P : Type u) (ID : Nat) : PayloadKind → CtrlState P → Prop where
  | from_value (v : Int) (h0 : Heap P) :
      Reach P ID .k32 (mkFromValue ID v h0)
  | from_value64 (v : Int) (h0 : Heap P) :
      Reach P ID .k64 (mkFromValue64 ID v h0)
  | fromParams (sz : Nat) (params : P) (h0 : Heap P) :
      Reach P ID (.kptr sz) (mkFromParams ID sz params h0)
  | set_value (v : Int) (s : CtrlState P) :
      Reach P ID .k32 s → Reach P ID .k32 (doSetValue s v)
  | set_value64 (v : Int) (s : CtrlState P) :
      Reach P ID .k64 s → Reach P ID .k64 (doSetValue64 s v)
  | setStruct (sz : Nat) (p : P) (s : CtrlState P) :
      Reach P ID (.kptr sz) s → Reach P ID (.kptr sz) (doSetStruct s p)

/-- The descriptor-level invariant the wrapper maintains (doc comment of
`SafeExtControl`): the identifier equals the identity's bound id, the
`size` field matches the payload kind, the union member last written is
the one the kind mandates, and for pointer kinds that member is a non-null
pointer to a live heap cell. -/
def StateInv {P : Type u} (ID : Nat) : PayloadKind → CtrlState P → Prop
  | .k32, s => s.c.raw.id = ID ∧ s.c.raw.size = 0 ∧
      ∃ v, s.c.raw.anon1 = .value v
  | .k64, s => s.c.raw.id = ID ∧ s.c.raw.size = 0 ∧
      ∃ v, s.c.raw.anon1 = .value64 v
  | .kptr sz, s => s.c.raw.id = ID ∧ s.c.raw.size = sz ∧
      ∃ a p, s.c.raw.anon1 = .ptr a ∧ a ≠ 0 ∧ s.h.lookup a = some p

/-- The `v4l2_ctrl_fwht_params` parameter struct from the bindgen
bindings (kernel uapi): a 64-bit timestamp followed by eight 32-bit
fields.  Field values are modelled as naturals; no arithmetic is ever
performed on them. -/
structure v4l2_ctrl_fwht_params where
  backward_ref_ts : Nat
  version : Nat
  width : Nat
  height : Nat
  flags : Nat
  colorspace : Nat
  xfer_func : Nat
  ycbcr_enc : Nat
  quantization : Nat
  deriving DecidableEq

/-- Modelled from the spec: the `FwhtFlags` bitflags type lives in the
`controls::codec` submodule, which is not among the sources under
verification.  The spec treats per-control type tables as mechanical
enumeration, so the model abstracts `FwhtFlags` by the mask of its defined
bit positions and gives `FwhtFlags::from_bits` the bitflags-crate
contract: the decoded set when the input has no bit outside the mask,
`none` otherwise. -/
def fwhtFlagsFromBits (definedMask bits : Nat) : Option Nat :=
  if bits &&& definedMask = bits then some bits else none

/-- `SafeExtControl::flags` for identities whose payload is
`v4l2_ctrl_fwht_params`: `FwhtFlags::from_bits(self.fwht_params().flags)`.
A `none` result of `getStruct` models the unreachable `unwrap` panic
inside `fwht_params()`. -/
def SafeExtControl.flagsAcc (definedMask : Nat) (c : SafeExtControl)
    (h : Heap v4l2_ctrl_fwht_params) : Option Nat :=
  match c.getStruct h with
  | some p => fwhtFlagsFromBits definedMask p.flags
  | none => none

/-- A concrete FWHT parameter struct used by the closed witness
theorems. -/
def fwhtExample : v4l2_ctrl_fwht_params :=
  ⟨0, 3, 640, 480, 5, 0, 0, 0, 0⟩

/-! Helper lemmas about the heap model. -/

theorem find?_updateAssoc_self {P : Type u} (l : List (Nat × P)) (a : Nat)
    (p : P) (hl : (l.find? (fun e => e.1 == a)).isSome) :
    (updateAssoc l a p).find? (fun e => e.1 == a) = some (a, p) := by
  induction l with
  | nil => simp [List.find?] at hl
  | cons e rest ih =>
    by_cases hc : e.1 == a
    · simp [updateAssoc, hc, List.find?]
    · simp only [List.find?, hc] at hl
      simp [updateAssoc, hc, List.find?, ih hl]

theorem length_updateAssoc {P : Type u} (l : List (Nat × P)) (a : Nat)
    (p : P) : (updateAssoc l a p).length = l.length := by
  induction l with
  | nil => rfl
  | cons e rest ih =>
    by_cases hc : e.1 == a
    · simp [updateAssoc, hc]
    · simp [updateAssoc, hc, ih]

theorem length_removeAssoc {P : Type u} (l : List (Nat × P)) (a : Nat)
    (hl : (l.find? (fun e => e.1 == a)).isSome) :
    l.length = (removeAssoc l a).length + 1 := by
  induction l with
  | nil => simp [List.find?] at hl
  | cons e rest ih =>
    by_cases hc : e.1 == a
    · simp [removeAssoc, hc]
    · simp only [List.find?, hc] at hl
      simp [removeAssoc, hc, ih hl]

theorem Heap.lookup_update_self {P : Type u} (h : Heap P) (a : Nat) (p : P)
    (hl : (h.lookup a).isSome) : (h.update a p).lookup a = some p := by
  have hfind : (h.alive.find? (fun e => e.1 == a)).isSome := by
    simpa [Heap.lookup] using hl
  simp [Heap.lookup, Heap.update, find?_updateAssoc_self h.alive a p hfind]

theorem Heap.lookup_alloc_self {P : Type u} (h : Heap P) (p : P) :
    (h.alloc p).2.lookup (h.alloc p).1 = some p := by
  simp [Heap.alloc, Heap.lookup, List.find?]

/-- Every reachable wrapper state satisfies the descriptor invariant.
Proof by induction over the construction/mutation history. -/
theorem reach_stateInv {P : Type u} {ID : Nat} {k : PayloadKind}
    {s : CtrlState P} (hr : Reach P ID k s) : StateInv ID k s := by
  induction hr with
  | from_value v h0 =>
    exact ⟨rfl, rfl, v, rfl⟩
  | from_value64 v h0 =>
    exact ⟨rfl, rfl, v, rfl⟩
  | fromParams sz params h0 =>
    refine ⟨rfl, rfl, h0.next + 1, params, rfl, Nat.succ_ne_zero _, ?_⟩
    simpa [SafeExtControl.fromParams, mkFromParams] using
      Heap.lookup_alloc_self h0 params
  | set_value v s _ ih =>
    obtain ⟨hid, hsz, w, hw⟩ := ih
    exact ⟨hid, hsz, v, rfl⟩
  | set_value64 v s _ ih =>
    obtain ⟨hid, hsz, w, hw⟩ := ih
    exact ⟨hid, hsz, v, rfl⟩
  | setStruct sz p s _ ih =>
    obtain ⟨hid, hsz, a, q, ha, hnz, hlook⟩ := ih
    refine ⟨hid, hsz, a, p, ha, hnz, ?_⟩
    have : s.c.raw.anon1.readPtr = a := by
      simp [ha, CtrlUnion.readPtr]
    simp only [doSetStruct, SafeExtControl.setStruct, this]
    exact s.h.lookup_update_self a p (by simp [hlook])

/-! Claim theorems. -/

/-- C1: after construction and after any sequence of exposed operations
(`set_value`, `set_value64`, mutation through the mutable struct
accessor), the wrapper's descriptor has identifier equal to the control
identity's statically bound id, `size` matching the payload kind (0 for
scalar kinds, the struct byte size for pointer kinds), and the union
member last written consistent with that kind — for pointer kinds a
non-null pointer to a live allocation — so no mismatched tag/size/pointer
combination is reachable. -/
theorem descriptor_invariant_reachable {P : Type u} {ID : Nat}
    {k : PayloadKind} {s : CtrlState P} (hr : Reach P ID k s) :
    s.c.id = ID ∧ s.c.raw.size = k.sizeField ∧
      (match k with
       | .k32 => ∃ v, s.c.raw.anon1 = .value v
       | .k64 => ∃ v, s.c.raw.anon1 = .value64 v
       | .kptr _ => ∃ a p, s.c.raw.anon1 = .ptr a ∧ a ≠ 0 ∧
           s.h.lookup a = some p) := by
  have hinv := reach_stateInv hr
  cases k with
  | k32 => exact hinv
  | k64 => exact hinv
  | kptr sz => exact hinv

/-- Closed instance of `descriptor_invariant_reachable`: a 32-bit scalar
wrapper built with value 128 then overwritten with 64 keeps id 9963776
(`V4L2_CID_BRIGHTNESS`) and size 0. -/
theorem descriptor_invariant_reachable_witness :
    (doSetValue (mkFromValue (P := Nat) 9963776 128 Heap.empty) 64).c.id = 9963776 ∧
    (doSetValue (mkFromValue (P := Nat) 9963776 128 Heap.empty) 64).c.raw.size =
      PayloadKind.k32.sizeField ∧
    ∃ v, (doSetValue (mkFromValue (P := Nat) 9963776 128 Heap.empty) 64).c.raw.anon1 =
      .value v :=
  descriptor_invariant_reachable
    (Reach.set_value 64 _ (Reach.from_value 128 Heap.empty))

/-- C2: `from_value` yields a wrapper with id equal to the bound id, size
0, `value()` returning exactly the supplied value, and an unchanged heap
(no allocation); being a total function it cannot fail.  `from_value64`
satisfies the symmetric property with `value64()`. -/
theorem from_value_spec {P : Type u} (ID : Nat) (v v64 : Int) (h0 : Heap P) :
    (mkFromValue (P := P) ID v h0).c.id = ID ∧
    (mkFromValue (P := P) ID v h0).c.raw.size = 0 ∧
    (mkFromValue (P := P) ID v h0).c.value = v ∧
    (mkFromValue (P := P) ID v h0).h = h0 ∧
    (mkFromValue64 (P := P) ID v64 h0).c.id = ID ∧
    (mkFromValue64 (P := P) ID v64 h0).c.raw.size = 0 ∧
    (mkFromValue64 (P := P) ID v64 h0).c.value64 = v64 ∧
    (mkFromValue64 (P := P) ID v64 h0).h = h0 :=
  ⟨rfl, rfl, rfl, rfl, rfl, rfl, rfl, rfl⟩

/-- C3: the `From<v4l2_ctrl_*>` constructor yields a wrapper with id equal
to the bound id, size equal to the payload struct's byte size
(`std::mem::size_of::<T::PAYLOAD>()`, the `szP` argument), an immutable
struct accessor returning exactly the supplied struct, and exactly one new
heap allocation. -/
theorem fromParams_spec {P : Type u} (ID szP : Nat) (params : P)
    (h0 : Heap P) :
    (mkFromParams ID szP params h0).c.id = ID ∧
    (mkFromParams ID szP params h0).c.raw.size = szP ∧
    (mkFromParams ID szP params h0).c.getStruct (mkFromParams ID szP params h0).h =
      some params ∧
    (mkFromParams ID szP params h0).h.allocCount = h0.allocCount + 1 := by
  refine ⟨rfl, rfl, ?_, rfl⟩
  simp [mkFromParams, SafeExtControl.fromParams, SafeExtControl.getStruct,
    CtrlUnion.readPtr, Heap.alloc, Heap.lookup, List.find?]

/-- C5: `set_value` followed by `value` returns exactly the written value
regardless of the wrapper's prior state, and symmetrically for
`set_value64` / `value64`; in particular constructing with 128, reading,
writing 64 and reading again yields 128 then 64. -/
theorem set_value_read_back (c d : SafeExtControl) (v w : Int) (ID : Nat) :
    (c.set_value v).value = v ∧
    (d.set_value64 w).value64 = w ∧
    (SafeExtControl.from_value ID 128).value = 128 ∧
    ((SafeExtControl.from_value ID 128).set_value 64).value = 64 ∧
    ((SafeExtControl.from_value ID 128).set_value 64).raw.size = 0 :=
  ⟨rfl, rfl, rfl, rfl, rfl⟩

/-- C4: on destruction, a wrapper with `size = 0` (every reachable scalar
state) deallocates nothing; a reachable pointer-kind wrapper whose bound
id is registered and whose struct size is positive is freed exactly once
(one deallocation, one live cell fewer); and an identifier matching no
registered pointer-kind control is treated as nothing to free. -/
theorem drop_spec :
    (∀ (P : Type u) (ID : Nat) (k : PayloadKind) (s : CtrlState P),
        Reach P ID k s → k.sizeField = 0 → s.c.dropCtrl s.h = s.h) ∧
    (∀ (P : Type u) (ID sz : Nat) (s : CtrlState P),
        Reach P ID (.kptr sz) s → 0 < sz → ID ∈ registeredStatelessIds →
        (s.c.dropCtrl s.h).freeCount = s.h.freeCount + 1 ∧
        s.h.alive.length = (s.c.dropCtrl s.h).alive.length + 1) ∧
    (∀ (P : Type u) (c : SafeExtControl) (h : Heap P),
        c.raw.id ∉ registeredStatelessIds → c.dropCtrl h = h) := by
  refine ⟨?_, ?_, ?_⟩
  · intro P ID k s hr hk
    have hinv := reach_stateInv hr
    have hsz : s.c.raw.size = 0 := by
      cases k with
      | k32 => exact hinv.2.1
      | k64 => exact hinv.2.1
      | kptr sz => exact hk ▸ hinv.2.1
    simp [SafeExtControl.dropCtrl, hsz]
  · intro P ID sz s hr hpos hmem
    obtain ⟨hid, hsz, a, p, ha, hnz, hlook⟩ := reach_stateInv hr
    have hread : s.c.raw.anon1.readPtr = a := by
      simp [ha, CtrlUnion.readPtr]
    have hsome : (s.h.lookup a).isSome := by simp [hlook]
    have hdrop : s.c.dropCtrl s.h = s.h.free a := by
      simp [SafeExtControl.dropCtrl, hsz, hpos, hid, hmem, hread]
    have hfree : s.h.free a =
        { s.h with alive := removeAssoc s.h.alive a,
                   freeCount := s.h.freeCount + 1 } := by
      simp [Heap.free, hsome]
    constructor
    · simp [hdrop, hfree]
    · have hlen := length_removeAssoc s.h.alive a
        (by simpa [Heap.lookup] using hsome)
      simpa [hdrop, hfree] using hlen
  · intro P c h hmem
    by_cases hsz : 0 < c.raw.size
    · simp [SafeExtControl.dropCtrl, hsz, hmem]
    · simp [SafeExtControl.dropCtrl, hsz]

/-- Closed instance of `drop_spec`: dropping a scalar brightness wrapper
leaves the heap untouched, and dropping a freshly constructed FWHT
wrapper (id `V4L2_CID_STATELESS_FWHT_PARAMS`, struct size 40) performs
exactly one deallocation and removes exactly one live cell. -/
theorem drop_spec_witness :
    ((mkFromValue (P := Nat) 9963776 7 Heap.empty).c.dropCtrl
        (mkFromValue (P := Nat) 9963776 7 Heap.empty).h =
      (mkFromValue (P := Nat) 9963776 7 Heap.empty).h) ∧
    (((mkFromParams V4L2_CID_STATELESS_FWHT_PARAMS 40 fwhtExample
          Heap.empty).c.dropCtrl
        (mkFromParams V4L2_CID_STATELESS_FWHT_PARAMS 40 fwhtExample
          Heap.empty).h).freeCount =
      (mkFromParams V4L2_CID_STATELESS_FWHT_PARAMS 40 fwhtExample
          Heap.empty).h.freeCount + 1 ∧
      (mkFromParams V4L2_CID_STATELESS_FWHT_PARAMS 40 fwhtExample
          Heap.empty).h.alive.length =
      ((mkFromParams V4L2_CID_STATELESS_FWHT_PARAMS 40 fwhtExample
          Heap.empty).c.dropCtrl
        (mkFromParams V4L2_CID_STATELESS_FWHT_PARAMS 40 fwhtExample
          Heap.empty).h).alive.length + 1) :=
  ⟨drop_spec.1 Nat 9963776 .k32 _ (Reach.from_value 7 Heap.empty) rfl,
   drop_spec.2.1 v4l2_ctrl_fwht_params V4L2_CID_STATELESS_FWHT_PARAMS 40 _
     (Reach.fromParams 40 fwhtExample Heap.empty) (by decide) (by decide)⟩

/-- C6: on any reachable pointer-kind wrapper, storing a struct through
the mutable accessor and re-reading through the immutable accessor
observes exactly the stored struct. -/
theorem mutate_then_get {P : Type u} {ID sz : Nat} {s : CtrlState P}
    (hr : Reach P ID (.kptr sz) s) (p : P) :
    (doSetStruct s p).c.getStruct (doSetStruct s p).h = some p := by
  obtain ⟨-, -, a, q, ha, hnz, hlook⟩ := reach_stateInv hr
  have hread : s.c.raw.anon1.readPtr = a := by
    simp [ha, CtrlUnion.readPtr]
  simp only [doSetStruct, SafeExtControl.getStruct, SafeExtControl.setStruct,
    hread]
  rw [if_neg hnz]
  exact s.h.lookup_update_self a p (by simp [hlook])

/-- Closed instance of `mutate_then_get`: overwriting the payload of a
fresh FWHT wrapper with a struct whose `flags` is 2 and re-reading yields
that struct. -/
theorem mutate_then_get_witness :
    (doSetStruct
        (mkFromParams V4L2_CID_STATELESS_FWHT_PARAMS 40 fwhtExample
          Heap.empty)
        ⟨0, 3, 640, 480, 2, 0, 0, 0, 0⟩).c.getStruct
      (doSetStruct
        (mkFromParams V4L2_CID_STATELESS_FWHT_PARAMS 40 fwhtExample
          Heap.empty)
        ⟨0, 3, 640, 480, 2, 0, 0, 0, 0⟩).h =
    some ⟨0, 3, 640, 480, 2, 0, 0, 0, 0⟩ :=
  mutate_then_get (Reach.fromParams 40 fwhtExample Heap.empty)
    ⟨0, 3, 640, 480, 2, 0, 0, 0, 0⟩

/-- C7: `set_value` and `set_value64` leave the descriptor's identifier
and size unchanged, and a store through the mutable struct accessor
leaves the whole descriptor (hence the stored pointer) unchanged and does
not reallocate: the heap's bump pointer, allocation and deallocation
counters, and number of live cells are all preserved. -/
theorem mutation_frame {P : Type u} (c : SafeExtControl) (v w : Int)
    (s : CtrlState P) (p : P) :
    (c.set_value v).id = c.id ∧
    (c.set_value v).raw.size = c.raw.size ∧
    (c.set_value64 w).id = c.id ∧
    (c.set_value64 w).raw.size = c.raw.size ∧
    (doSetStruct s p).c = s.c ∧
    (doSetStruct s p).h.next = s.h.next ∧
    (doSetStruct s p).h.allocCount = s.h.allocCount ∧
    (doSetStruct s p).h.freeCount = s.h.freeCount ∧
    (doSetStruct s p).h.alive.length = s.h.alive.length := by
  refine ⟨rfl, rfl, rfl, rfl, rfl, rfl, rfl, rfl, ?_⟩
  exact length_updateAssoc s.h.alive (s.c.raw.anon1.readPtr) p

/-- C8: on any reachable pointer-kind wrapper the stored pointer is the
non-null address of a live heap cell, so the accessors' internal
`as_ref().unwrap()` null check never fails and `getStruct` always returns
a value. -/
theorem getStruct_never_fails {P : Type u} {ID sz : Nat} {s : CtrlState P}
    (hr : Reach P ID (.kptr sz) s) :
    ∃ a p, s.c.raw.anon1 = .ptr a ∧ a ≠ 0 ∧
      s.c.getStruct s.h = some p := by
  obtain ⟨-, -, a, p, ha, hnz, hlook⟩ := reach_stateInv hr
  refine ⟨a, p, ha, hnz, ?_⟩
  have hread : s.c.raw.anon1.readPtr = a := by
    simp [ha, CtrlUnion.readPtr]
  simp [SafeExtControl.getStruct, hread, hnz, hlook]

/-- Closed instance of `getStruct_never_fails` on a freshly constructed
FWHT wrapper. -/
theorem getStruct_never_fails_witness :
    ∃ a p,
      (mkFromParams V4L2_CID_STATELESS_FWHT_PARAMS 40 fwhtExample
          Heap.empty).c.raw.anon1 = .ptr a ∧ a ≠ 0 ∧
      (mkFromParams V4L2_CID_STATELESS_FWHT_PARAMS 40 fwhtExample
          Heap.empty).c.getStruct
        (mkFromParams V4L2_CID_STATELESS_FWHT_PARAMS 40 fwhtExample
          Heap.empty).h = some p :=
  getStruct_never_fails (Reach.fromParams 40 fwhtExample Heap.empty)

/-- C9: presenting any reachable wrapper through
`as_v4l2_control_slice` yields a one-element sequence whose sole element
is the wrapper's own raw descriptor, with identifier equal to the bound
id; and since the slice aliases the wrapper's storage, a write through
element 0 is exactly a write to the wrapper's descriptor, observable
afterwards through the typed accessors. -/
theorem slice_view_spec {P : Type u} {ID : Nat} {k : PayloadKind}
    {s : CtrlState P} (hr : Reach P ID k s) :
    s.c.as_v4l2_control_slice = [s.c.raw] ∧
    s.c.as_v4l2_control_slice.length = 1 ∧
    (∀ d ∈ s.c.as_v4l2_control_slice, d.id = ID) ∧
    (∀ d : v4l2_ext_control,
      (s.c.sliceWrite0 d).raw = d ∧
      (s.c.sliceWrite0 d).value = d.anon1.readValue ∧
      (s.c.sliceWrite0 d).value64 = d.anon1.readValue64) := by
  have hid : s.c.raw.id = ID := by
    have hinv := reach_stateInv hr
    cases k with
    | k32 => exact hinv.1
    | k64 => exact hinv.1
    | kptr sz => exact hinv.1
  refine ⟨rfl, rfl, ?_, fun d => ⟨rfl, rfl, rfl⟩⟩
  intro d hd
  have : d = s.c.raw := by
    simpa [SafeExtControl.as_v4l2_control_slice] using hd
  simp [this, hid]

/-- Closed instance of `slice_view_spec`: a contrast wrapper
(`V4L2_CID_CONTRAST`, 9963777) with value 33 presents itself as the
one-element slice of its own descriptor, and a scalar write through the
slice is visible through `value()`. -/
theorem slice_view_spec_witness :
    (mkFromValue (P := Nat) 9963777 33 Heap.empty).c.as_v4l2_control_slice =
      [(mkFromValue (P := Nat) 9963777 33 Heap.empty).c.raw] ∧
    (mkFromValue (P := Nat) 9963777 33
        Heap.empty).c.as_v4l2_control_slice.length = 1 ∧
    (∀ d ∈ (mkFromValue (P := Nat) 9963777 33
        Heap.empty).c.as_v4l2_control_slice, d.id = 9963777) ∧
    (∀ d : v4l2_ext_control,
      ((mkFromValue (P := Nat) 9963777 33 Heap.empty).c.sliceWrite0 d).raw = d ∧
      ((mkFromValue (P := Nat) 9963777 33 Heap.empty).c.sliceWrite0 d).value =
        d.anon1.readValue ∧
      ((mkFromValue (P := Nat) 9963777 33 Heap.empty).c.sliceWrite0 d).value64 =
        d.anon1.readValue64) :=
  slice_view_spec (Reach.from_value 33 Heap.empty)

/-- C10: on any reachable FWHT-payload wrapper, the `flags()` accessor
never panics (the struct accessor it calls always yields the stored
struct) and returns the decoded flag set exactly when the struct's
`flags` field has no bit outside the defined mask, `none` otherwise. -/
theorem flags_spec (definedMask : Nat) {ID sz : Nat}
    {s : CtrlState v4l2_ctrl_fwht_params}
    (hr : Reach v4l2_ctrl_fwht_params ID (.kptr sz) s) :
    ∃ p, s.c.getStruct s.h = some p ∧
      s.c.flagsAcc definedMask s.h =
        (if p.flags &&& definedMask = p.flags then some p.flags
         else none) := by
  obtain ⟨-, -, a, p, ha, hnz, hlook⟩ := reach_stateInv hr
  have hread : s.c.raw.anon1.readPtr = a := by
    simp [ha, CtrlUnion.readPtr]
  have hget : s.c.getStruct s.h = some p := by
    simp [SafeExtControl.getStruct, hread, hnz, hlook]
  exact ⟨p, hget, by simp [SafeExtControl.flagsAcc, hget, fwhtFlagsFromBits]⟩

/-- Closed instance of `flags_spec`: with defined mask `0x3ff`, a stored
`flags` field of 5 decodes to `some 5`. -/
theorem flags_spec_witness :
    ∃ p,
      (mkFromParams V4L2_CID_STATELESS_FWHT_PARAMS 40 fwhtExample
          Heap.empty).c.getStruct
        (mkFromParams V4L2_CID_STATELESS_FWHT_PARAMS 40 fwhtExample
          Heap.empty).h = some p ∧
      (mkFromParams V4L2_CID_STATELESS_FWHT_PARAMS 40 fwhtExample
          Heap.empty).c.flagsAcc 0x3ff
        (mkFromParams V4L2_CID_STATELESS_FWHT_PARAMS 40 fwhtExample
          Heap.empty).h =
        (if p.flags &&& 0x3ff = p.flags then some p.flags else none) :=
  flags_spec 0x3ff (Reach.fromParams 40 fwhtExample Heap.empty)

end V4l2r
